import Mathlib

/-!
Verification development for the dogbot gateway repository
(connection hub, wire protocol and event-broadcast layer).

The Go sources are shallowly embedded as executable Lean definitions:

* `internal/protocol` (serializer half of `executor.go`): `Serializer.marshal`
  and `Serializer.unmarshal`, with the JSON parse step abstracted by the
  `WireBytes` inductive (everything after the parse is translated line by
  line from the source).
* `internal/protocol` (event bus, `part_006`): `EventBusM.publish`,
  `EventBusM.publishData`, `EventBusM.subscribe`, `EventBusM.unsubscribe`,
  `matchFilter` and the per-subscriber delivery step `deliverTo`.
* `internal/ws` (`part_005`): the bounded outbound queue (`Conn.write`,
  capacity 256, non-blocking drop-on-full) and the method handler table
  (`Handler.handleMessage`, `Handler.handleRequest`, `defaultHandler`).
* `pkg/gateway` (`part_002`, `client.go`, `heartbeat.go`): the client
  registry, `Gateway.handleMessage` dispatch, `Gateway.handleConnect`,
  `Gateway.stop`, the hub loop step `runHubStep`, and
  `Heartbeat.checkIdleClients`.

Time is passed explicitly (`now : Nat`, in nanoseconds for session minting
and in seconds for heartbeat durations), and Go channels become explicit
queues (`List`), with a ghost `received` list recording, in receipt order,
the events a subscriber has read from its delivery channel.  Go's `int`
sequence counter is modelled as `Nat` (wraparound after 2^63 publishes is
out of scope of the claims).  The struct `ProtocolMessage` and
`ConnectRequest.Validate` live in `internal/protocol/protocol.go`, which is
absent from the sources; the struct's fields are reconstructed from their
uses in the serializer and gateway, and `Validate` is modelled from the
spec (see its doc comment).
-/

namespace DogBot

/-! ## Wire protocol data model -/

/-- Message type constant `TypeReq` (`"req"` on the wire). -/
def typeReq : String := "req"

/-- Message type constant `TypeRes` (`"res"` on the wire). -/
def typeRes : String := "res"

/-- Message type constant `TypeEvent` (`"event"` on the wire). -/
def typeEvent : String := "event"

/-- Connect-handshake request parameters (`protocol.ConnectRequest`).
Fields are the ones read by `Gateway.handleConnect` and the ws `connect`
handler: device identifier, client identifier and declared version. -/
structure ConnectRequest where
  deviceID : String
  clientID : String := ""
  version : String := ""
  token : String := ""
deriving DecidableEq, Repr

/-- Modelled from the spec: `ConnectRequest.Validate` is defined in
`internal/protocol/protocol.go`, which is missing from the sources (only
its callers are present).  Per the spec, the `connect` request must carry a
non-empty device identifier (`MissingDeviceID`); token policy checks are an
external collaborator and are not modelled.  Returns `some err` on
validation failure, `none` on success, mirroring a Go `error` return. -/
def ConnectRequest.validate (r : ConnectRequest) : Option String :=
  if r.deviceID = "" then some "missing device id" else none

/-- Opaque structured body data (`interface{}` / `json.RawMessage`).
`jsonVal` is data that `json.Marshal` serializes successfully, `badVal`
data on which it fails, `nilData` a nil value/raw message. -/
inductive DataVal where
  | nilData
  | jsonVal (s : String)
  | badVal
deriving DecidableEq, Repr

/-- Abstraction of a `json.RawMessage` params field, indexed by what Go's
lenient `json.Unmarshal` produces for each target struct the core decodes
into.  A JSON object decodes successfully into any of the param structs
(unmatched fields are zeroed), so `jsonObj` carries the decoded
`ConnectRequest` and the decoded ping sequence side by side; `absent` is a
nil raw message (`json.Unmarshal` fails with an unexpected-end error) and
`notJson` is undecodable data. -/
inductive ParamsVal where
  | absent
  | jsonObj (asConnect : ConnectRequest) (asPingSeq : Int)
  | notJson
deriving DecidableEq, Repr

/-- Decoding of `msg.Params` into a `protocol.ConnectRequest`
(`json.Unmarshal(msg.Params, &req)`). -/
def decodeConnect : ParamsVal → Except String ConnectRequest
  | .absent => .error "unexpected end of JSON input"
  | .notJson => .error "invalid JSON"
  | .jsonObj r _ => .ok r

/-- Decoding of `msg.Params` into a `protocol.PingMessage`. -/
def decodePing : ParamsVal → Except String Int
  | .absent => .error "unexpected end of JSON input"
  | .notJson => .error "invalid JSON"
  | .jsonObj _ s => .ok s

/-- Decoding of `msg.Params` into a `protocol.StateRequest` (no fields of
it are used afterwards, so only success/failure is recorded). -/
def decodeState : ParamsVal → Except String Unit
  | .absent => .error "unexpected end of JSON input"
  | .notJson => .error "invalid JSON"
  | .jsonObj _ _ => .ok ()

/-- Decoding of `msg.Params` into an `agent.Config` (the config itself is
opaque to the dispatch layer, so only success/failure is recorded). -/
def decodeAgentConfig : ParamsVal → Except String Unit
  | .absent => .error "unexpected end of JSON input"
  | .notJson => .error "invalid JSON"
  | .jsonObj _ _ => .ok ()

/-- State snapshot (`protocol.StateSnapshot`) as populated by
`Gateway.handleConnect` and the ws handlers. -/
structure StateSnapshotM where
  version : String
  gatewayID : String := ""
  clientID : String := ""
  sessionID : String := ""
  workspace : String := ""
  timestamp : Nat := 0
deriving DecidableEq, Repr

/-- Handshake response payload (`protocol.HelloPayload`). -/
structure HelloPayloadM where
  version : String
  deviceID : String
  sessionID : String
  workspace : String
  state : StateSnapshotM
deriving DecidableEq, Repr

/-- Response/event payload bodies written by the core's handlers. -/
inductive PayloadVal where
  | nullPayload
  | helloPayload (p : HelloPayloadM)
  | pingPayload (seq : Int)
  | statePayload (s : StateSnapshotM)
  | agentPayload (status : String)
deriving DecidableEq, Repr

/-- The wire envelope `protocol.ProtocolMessage`.  The struct itself is in
the missing `protocol.go`; its fields (`Type`, `ID`, `Method`, `Params`,
`Ok`, `Payload`, `Error`, `Event`, `Data`, `Seq`) are exactly the ones used
by the serializer and the gateway sources.  `type` is a string after JSON
decoding, compared against the three `Type*` constants. -/
structure ProtocolMessage where
  type : String
  id : String := ""
  method : String := ""
  params : ParamsVal := .absent
  ok : Bool := false
  payload : PayloadVal := .nullPayload
  error : String := ""
  event : String := ""
  data : DataVal := .nilData
  seq : Int := 0
deriving DecidableEq, Repr

/-! ## Serializer (`protocol.Serializer`, second half of `executor.go`) -/

/-- Errors produced by the serializer (`ErrInvalidMessage`,
`ErrInvalidType`, `ErrMissingID`, plus `malformedEnvelope` standing for a
propagated `json.Unmarshal` error). -/
inductive SerErr where
  | invalidMessage
  | malformedEnvelope
  | invalidType
  | missingID
deriving DecidableEq, Repr

/-- Input to `Serializer.Unmarshal`, abstracting the JSON parse:
`emptyBytes` is a zero-length input, `malformedBytes` a non-empty input on
which `json.Unmarshal` fails, and `wellFormed msg` a non-empty input that
parses to `msg`. -/
inductive WireBytes where
  | emptyBytes
  | malformedBytes
  | wellFormed (msg : ProtocolMessage)
deriving DecidableEq, Repr

/-- `Serializer.Unmarshal`: rejects empty input with `ErrInvalidMessage`,
propagates the JSON parse error on malformed input, rejects a decoded
message whose type is not one of `req`/`res`/`event` with
`ErrInvalidType`, and otherwise succeeds. -/
def Serializer.unmarshal : WireBytes → Except SerErr ProtocolMessage
  | .emptyBytes => .error .invalidMessage
  | .malformedBytes => .error .malformedEnvelope
  | .wellFormed msg =>
    if ¬(msg.type = typeReq ∨ msg.type = typeRes ∨ msg.type = typeEvent) then
      .error .invalidType
    else
      .ok msg

/-- `Serializer.Marshal`: rejects a nil message with `ErrInvalidMessage`,
an invalid type with `ErrInvalidType`, and a request with an empty `ID`
with `ErrMissingID`; otherwise it encodes the message (the encoded bytes
are represented by the message itself; encoder failures on caller-supplied
unserializable bodies are outside the claims and not modelled). -/
def Serializer.marshal : Option ProtocolMessage → Except SerErr ProtocolMessage
  | none => .error .invalidMessage
  | some msg =>
    if ¬(msg.type = typeReq ∨ msg.type = typeRes ∨ msg.type = typeEvent) then
      .error .invalidType
    else if msg.type = typeReq ∧ msg.id = "" then
      .error .missingID
    else
      .ok msg

/-! ## Event bus (`internal/protocol`, `part_006`) -/

/-- A broadcast event (`protocol.Event`).  `time` mirrors
`getCurrentTimestamp`, which in the source is a placeholder returning 0. -/
structure EventM where
  type : String
  channel : String
  data : DataVal
  seq : Nat
  time : Nat
deriving DecidableEq, Repr

/-- Subscriber callback (`func(*Event) bool`); returning false asks the
bus to drop the subscription. -/
abbrev CallbackFn := EventM → Bool

/-- An event subscriber (`protocol.EventSubscriber`).  `send` is the
private delivery channel (capacity 256) as an explicit queue; `received`
is a ghost list of the events the consumer has read from that channel, in
receipt order; `token` stands for the Go pointer identity used as the map
key in the bus. -/
structure EventSubscriberM where
  token : Nat
  id : String
  channel : String
  eventTypes : List String
  callback : Option CallbackFn
  send : List EventM := []
  received : List EventM := []

/-- Delivery-channel capacity (`make(chan *Event, 256)`). -/
def subQueueCap : Nat := 256

/-- The event bus (`protocol.EventBus`).  `closedTokens` is a ghost record
of the delivery channels that have been closed (`close(sub.send)`),
observing double closes. -/
structure EventBusM where
  subscribers : List EventSubscriberM
  seq : Nat
  nextToken : Nat
  closedTokens : List Nat

/-- `protocol.NewEventBus`. -/
def newEventBus : EventBusM := ⟨[], 0, 0, []⟩

/-- `EventBus.matchFilter`: channel filter (empty = all channels) and
event-type filter (empty = all types). -/
def matchFilter (sub : EventSubscriberM) (eventType channel : String) : Bool :=
  if sub.channel ≠ "" ∧ sub.channel ≠ channel then
    false
  else if sub.eventTypes.length > 0 then
    sub.eventTypes.contains eventType
  else
    true

/-- The per-subscriber body of the delivery loop in `EventBus.Publish` /
`EventBus.PublishData`: skip non-matching subscribers; non-blocking send to
the queue if it has room; on a full queue, fall back to invoking the
callback directly, and delete the subscription (`none`) when the callback
returns false. -/
def deliverTo (ev : EventM) (sub : EventSubscriberM) : Option EventSubscriberM :=
  if matchFilter sub ev.type ev.channel = false then
    some sub
  else if sub.send.length < subQueueCap then
    some { sub with send := sub.send ++ [ev] }
  else
    match sub.callback with
    | none => some sub
    | some cb => if cb ev then some sub else none

/-- Marshalling of the `data interface{}` argument of `EventBus.Publish`:
a nil value is passed through, serializable data is marshalled, and a
`json.Marshal` failure makes `Publish` return without doing anything. -/
def marshalData : DataVal → Option DataVal
  | .nilData => some .nilData
  | .jsonVal s => some (.jsonVal s)
  | .badVal => none

/-- `EventBus.Publish`: marshal the data (returning unchanged on failure),
take the next sequence number under the lock, build the event and attempt
non-blocking delivery to every matching subscriber. -/
def EventBusM.publish (bus : EventBusM) (eventType channel : String)
    (data : DataVal) : EventBusM :=
  match marshalData data with
  | none => bus
  | some dataRaw =>
    let ev : EventM := ⟨eventType, channel, dataRaw, bus.seq + 1, 0⟩
    { bus with
      seq := bus.seq + 1
      subscribers := bus.subscribers.filterMap (deliverTo ev) }

/-- `EventBus.PublishData`: like `Publish` but the raw JSON data is passed
through without a marshal step. -/
def EventBusM.publishData (bus : EventBusM) (eventType channel : String)
    (data : DataVal) : EventBusM :=
  let ev : EventM := ⟨eventType, channel, data, bus.seq + 1, 0⟩
  { bus with
    seq := bus.seq + 1
    subscribers := bus.subscribers.filterMap (deliverTo ev) }

/-- `EventBus.Subscribe`: registers a new subscriber with an empty
delivery queue and a fresh identity token. -/
def EventBusM.subscribe (bus : EventBusM) (id channel : String)
    (eventTypes : List String) (callback : Option CallbackFn) : EventBusM :=
  { bus with
    subscribers :=
      bus.subscribers ++ [⟨bus.nextToken, id, channel, eventTypes, callback, [], []⟩]
    nextToken := bus.nextToken + 1 }

/-- `EventBus.Unsubscribe`: if the subscription is still registered,
remove it and close its delivery channel; otherwise do nothing. -/
def EventBusM.unsubscribe (bus : EventBusM) (tok : Nat) : EventBusM :=
  if bus.subscribers.any (fun s => s.token == tok) then
    { bus with
      subscribers := bus.subscribers.filter (fun s => !(s.token == tok))
      closedTokens := bus.closedTokens ++ [tok] }
  else
    bus

/-- Ghost consumer step: a subscriber reads the oldest event from its
delivery channel (FIFO receive on `sub.send`). -/
def consumeSub (sub : EventSubscriberM) : EventSubscriberM :=
  match sub.send with
  | [] => sub
  | e :: rest => { sub with received := sub.received ++ [e], send := rest }

/-- Apply the ghost consumer step to the subscriber at index `i`. -/
def consumeAt : List EventSubscriberM → Nat → List EventSubscriberM
  | [], _ => []
  | s :: rest, 0 => consumeSub s :: rest
  | s :: rest, n + 1 => s :: consumeAt rest n

/-- A history of event-bus operations: the bus API calls plus the ghost
receive step of a subscriber draining its channel. -/
inductive BusOp where
  | publishOp (t ch : String) (d : DataVal)
  | publishDataOp (t ch : String) (d : DataVal)
  | subscribeOp (id ch : String) (types : List String) (cb : Option CallbackFn)
  | unsubscribeOp (tok : Nat)
  | consumeOp (i : Nat)

/-- One step of a bus history. -/
def applyBusOp (bus : EventBusM) : BusOp → EventBusM
  | .publishOp t ch d => bus.publish t ch d
  | .publishDataOp t ch d => bus.publishData t ch d
  | .subscribeOp id ch types cb => bus.subscribe id ch types cb
  | .unsubscribeOp tok => bus.unsubscribe tok
  | .consumeOp i => { bus with subscribers := consumeAt bus.subscribers i }

/-- A whole bus history, starting from `NewEventBus`. -/
def applyBusOps (bus : EventBusM) (ops : List BusOp) : EventBusM :=
  ops.foldl applyBusOp bus

/-- The sequence numbers a subscriber observes: first the events already
received from its channel, in receipt order, then the ones still queued
(which will be received next, in queue order). -/
def obsSeqs (sub : EventSubscriberM) : List Nat :=
  (sub.received ++ sub.send).map EventM.seq

/-! ## Connection layer (`internal/ws`, `part_005`) -/

/-- A message handed to the outbound queue of a connection.  The handlers
only ever write encoded responses (`WriteResponse` / marshalled
`HelloResponse`); `raw` stands for other raw writes (`WriteRaw`). -/
inductive OutMsg where
  | response (id : String) (ok : Bool) (payload : PayloadVal) (err : String)
  | eventMsg (event : String) (data : DataVal) (seq : Int)
  | raw
deriving DecidableEq, Repr

/-- Outbound queue capacity (`make(chan []byte, 256)`). -/
def sendCap : Nat := 256

/-- One `ws.Conn`: its identity string, the bounded outbound queue
(`send`), and whether its context has been cancelled (`Close`/`Stop`). -/
structure ConnState where
  id : String
  sendQueue : List OutMsg := []
  ctxDone : Bool := false
deriving DecidableEq, Repr

/-- `Conn.Write`: non-blocking enqueue.  The Go `select` picks the ready
send case when the queue has room; the model resolves the (rare) race with
a simultaneously cancelled context in favour of the send, matching the
claims' use where the context is live.  A full queue yields the
"send buffer full" error, a cancelled context "connection closed"; the
caller is never blocked. -/
def Conn.write (c : ConnState) (m : OutMsg) : ConnState × Option String :=
  if c.sendQueue.length < sendCap ∧ c.ctxDone = false then
    ({ c with sendQueue := c.sendQueue ++ [m] }, none)
  else if c.ctxDone then
    (c, some "connection closed")
  else
    (c, some "send buffer full")

/-- `Conn.WriteResponse`: marshal a response envelope and write it.  (The
serializer cannot fail on a response envelope: its type is valid and the
`ID` check applies only to requests.) -/
def Conn.writeResponse (c : ConnState) (id : String) (ok : Bool)
    (payload : PayloadVal) (errorMsg : String) : ConnState × Option String :=
  Conn.write c (.response id ok payload errorMsg)

/-- `Conn.Close`: cancel the context and close the socket. -/
def Conn.close (c : ConnState) : ConnState :=
  { c with ctxDone := true }

/-- `ws.MessageHandler`: a registered method handler.  It receives the
connection (plus the current time, which the Go handlers read from the
clock) and the message, mutates the connection by writing to it and may
return an error. -/
abbrev HandlerFn := ConnState → Nat → ProtocolMessage → ConnState × Option String

/-- `ws.Handler`: the method-handler table.  The Go `map[string]` is
modelled as an association list with overwrite-on-register semantics. -/
structure HandlerM where
  handlers : List (String × HandlerFn)

/-- `ws.NewHandler`. -/
def newHandler : HandlerM := ⟨[]⟩

/-- Map-faithful overwrite of a key in an association list. -/
def overwriteKey : List (String × HandlerFn) → String → HandlerFn →
    List (String × HandlerFn)
  | [], m, f => [(m, f)]
  | (k, g) :: rest, m, f =>
    if k = m then (m, f) :: rest else (k, g) :: overwriteKey rest m f

/-- `Handler.RegisterHandler`. -/
def registerHandler (h : HandlerM) (method : String) (f : HandlerFn) : HandlerM :=
  ⟨overwriteKey h.handlers method f⟩

/-- Lookup of `h.handlers[msg.Method]`. -/
def lookupHandler (h : HandlerM) (method : String) : Option HandlerFn :=
  h.handlers.lookup method

/-- `Handler.handleRequest`: dispatch to the registered handler; an
unregistered method is answered with an `ok=false` response reading
"unknown method: ..." (the connection is not closed); a handler error is
reported back the same way. -/
def Handler.handleRequest (h : HandlerM) (conn : ConnState) (now : Nat)
    (msg : ProtocolMessage) : ConnState × Option String :=
  match lookupHandler h msg.method with
  | none =>
    Conn.writeResponse conn msg.id false .nullPayload
      ("unknown method: " ++ msg.method)
  | some f =>
    match f conn now msg with
    | (conn', none) => (conn', none)
    | (conn', some e) => Conn.writeResponse conn' msg.id false .nullPayload e

/-- `Handler.HandleMessage`: requests with a method go to
`handleRequest`; everything else is logged and ignored. -/
def Handler.handleMessage (h : HandlerM) (conn : ConnState) (now : Nat)
    (msg : ProtocolMessage) : ConnState × Option String :=
  if msg.type = typeReq ∧ msg.method ≠ "" then
    Handler.handleRequest h conn now msg
  else
    (conn, none)

/-- The `connect` handler registered by `ws.DefaultHandler`: decode and
validate the request, then write a `HelloResponse` with a freshly minted
session identifier (this ws-level handler does not touch the gateway's
client entry). -/
def connectHandlerFn : HandlerFn := fun conn now msg =>
  match decodeConnect msg.params with
  | .error e => (conn, some e)
  | .ok req =>
    match ConnectRequest.validate req with
    | some e => (conn, some e)
    | none =>
      let sessionID := "session-" ++ toString now
      let payload : HelloPayloadM :=
        { version := "0.0.1", deviceID := req.deviceID, sessionID := sessionID
          workspace := "default"
          state := { version := "0.0.1", sessionID := sessionID
                     workspace := "default", timestamp := now } }
      Conn.write conn (.response msg.id true (.helloPayload payload) "")

/-- The `ping` handler registered by `ws.DefaultHandler`: echo the ping
sequence back in an `ok=true` response. -/
def pingHandlerFn : HandlerFn := fun conn _ msg =>
  match decodePing msg.params with
  | .error e => (conn, some e)
  | .ok s => Conn.writeResponse conn msg.id true (.pingPayload s) ""

/-- The `state` handler registered by `ws.DefaultHandler`: return a state
snapshot built from the connection identity. -/
def stateHandlerFn : HandlerFn := fun conn now msg =>
  match decodeState msg.params with
  | .error e => (conn, some e)
  | .ok _ =>
    Conn.writeResponse conn msg.id true
      (.statePayload { version := "0.0.1", sessionID := conn.id, timestamp := now }) ""

/-- `ws.DefaultHandler`: the handler table with `connect`, `ping` and
`state` registered. -/
def defaultHandler : HandlerM :=
  registerHandler
    (registerHandler (registerHandler newHandler "connect" connectHandlerFn)
      "ping" pingHandlerFn)
    "state" stateHandlerFn

/-! ## Gateway (`pkg/gateway`, `part_002` and `client.go`) -/

/-- One registered client (`gateway.Client`).  `sessionID` is empty until
a successful connect handshake mints one. -/
structure ClientM where
  id : String
  conn : ConnState
  deviceID : String := ""
  clientID : String := ""
  sessionID : String := ""
  clientType : String := ""
  status : String := "connected"
  connectedAt : Nat := 0
  lastSeen : Nat := 0
  capabilities : List String := []
  metadata : List (String × String) := []

/-- `Client.Close`: mark the client disconnected and close its
connection.  The client registry is not touched. -/
def ClientM.close (c : ClientM) : ClientM :=
  { c with status := "disconnected", conn := Conn.close c.conn }

/-- The gateway (`gateway.Gateway`): the client registry (client ID to
client), the event bus, the ws handler, and whether the agent runtime is
running (the runtime internals are an external collaborator). -/
structure GatewayM where
  id : String
  clients : List (String × ClientM)
  eventBus : EventBusM
  handler : HandlerM
  agentRunning : Bool := false

/-- Result of one dispatch step: the updated gateway and client plus the
Go `error` return of `handleMessage` (logged by the caller; a non-nil
error does not close the connection). -/
structure DispatchOut where
  gw : GatewayM
  client : ClientM
  err : Option String

/-- `Gateway.handleAgentStart`: decode the agent config, start the
runtime (failing if it is already running; on failure the error is
returned and no response is written), then answer `ok=true`. -/
def Gateway.handleAgentStart (g : GatewayM) (c : ClientM)
    (msg : ProtocolMessage) : DispatchOut :=
  match decodeAgentConfig msg.params with
  | .error e => ⟨g, c, some e⟩
  | .ok _ =>
    if g.agentRunning then
      ⟨g, c, some "agent runtime is already running"⟩
    else
      let g := { g with agentRunning := true }
      let (conn', err) := Conn.writeResponse c.conn msg.id true (.agentPayload "started") ""
      ⟨g, { c with conn := conn' }, err⟩

/-- `Gateway.handleAgentStop`: stop the runtime (failing if it is not
running), then answer `ok=true`. -/
def Gateway.handleAgentStop (g : GatewayM) (c : ClientM)
    (msg : ProtocolMessage) : DispatchOut :=
  if ¬g.agentRunning then
    ⟨g, c, some "agent runtime is not running"⟩
  else
    let g := { g with agentRunning := false }
    let (conn', err) := Conn.writeResponse c.conn msg.id true (.agentPayload "stopped") ""
    ⟨g, { c with conn := conn' }, err⟩

/-- `Gateway.handleAgentStatus`: answer `ok=true` with the runtime
status. -/
def Gateway.handleAgentStatus (g : GatewayM) (c : ClientM)
    (msg : ProtocolMessage) : DispatchOut :=
  let status := if g.agentRunning then "running" else "not_started"
  let (conn', err) := Conn.writeResponse c.conn msg.id true (.agentPayload status) ""
  ⟨g, { c with conn := conn' }, err⟩

/-- `Gateway.handleConnect`: decode and validate the `connect` request,
record the device/client identity, mint a session identifier from the
current clock (`fmt.Sprintf("session-%d", time.Now().UnixNano())`), write
the `HelloResponse` (its write error is discarded by the source), and
publish a `client.connected` event (the event's data map is serializable,
represented opaquely). -/
def Gateway.handleConnect (g : GatewayM) (c : ClientM) (msg : ProtocolMessage)
    (now : Nat) : DispatchOut :=
  match decodeConnect msg.params with
  | .error e => ⟨g, c, some e⟩
  | .ok req =>
    match ConnectRequest.validate req with
    | some e => ⟨g, c, some e⟩
    | none =>
      let c := { c with
        deviceID := req.deviceID
        clientID := req.clientID
        metadata := ("version", req.version) :: c.metadata }
      let sessionID := "session-" ++ toString now
      let c := { c with sessionID := sessionID }
      let payload : HelloPayloadM :=
        { version := "0.0.1", deviceID := c.deviceID, sessionID := sessionID
          workspace := "default"
          state := { version := "0.0.1", gatewayID := g.id, clientID := c.id
                     sessionID := sessionID, workspace := "default"
                     timestamp := now } }
      let conn' := (Conn.write c.conn (.response msg.id true (.helloPayload payload) "")).1
      let bus' := g.eventBus.publish "client.connected" "" (.jsonVal "client-info")
      ⟨{ g with eventBus := bus' }, { c with conn := conn' }, none⟩

/-- `Gateway.handleMessage`: the single per-message dispatch entry point.
It stamps the client's last-activity time, routes `agent.start` /
`agent.stop` / `agent.status` and `connect` requests to the gateway's own
handlers, and hands everything else to the ws protocol handler.  No branch
checks whether the client has completed a handshake, and no branch closes
the connection. -/
def Gateway.handleMessage (g : GatewayM) (c : ClientM) (msg : ProtocolMessage)
    (now : Nat) : DispatchOut :=
  let c := { c with lastSeen := now }
  if msg.type = typeReq ∧ msg.method = "agent.start" then
    Gateway.handleAgentStart g c msg
  else if msg.type = typeReq ∧ msg.method = "agent.stop" then
    Gateway.handleAgentStop g c msg
  else if msg.type = typeReq ∧ msg.method = "agent.status" then
    Gateway.handleAgentStatus g c msg
  else if msg.type = typeReq ∧ msg.method = "connect" then
    Gateway.handleConnect g c msg now
  else
    let (conn', err) := Handler.handleMessage g.handler c.conn now msg
    ⟨g, { c with conn := conn' }, err⟩

/-- The messages processed by `Gateway.runHub`. -/
inductive HubOp where
  | registerC (c : ClientM)
  | unregisterC (c : ClientM)
  | broadcastB

/-- One iteration of the `Gateway.runHub` select loop: `register` inserts
the client into the registry, `unregister` deletes it if present, and
`broadcast` writes the queued message to every registered client (write
errors are logged; the registry is unchanged). -/
def runHubStep (g : GatewayM) : HubOp → GatewayM
  | .registerC c =>
    { g with clients := (c.id, c) :: g.clients.filter (fun p => !(p.1 == c.id)) }
  | .unregisterC c =>
    if g.clients.any (fun p => p.1 == c.id) then
      { g with clients := g.clients.filter (fun p => !(p.1 == c.id)) }
    else
      g
  | .broadcastB =>
    { g with clients := g.clients.map (fun p => (p.1, { p.2 with conn := (Conn.write p.2.conn .raw).1 })) }

/-- `Gateway.Stop`: cancel the context (ending the hub loop), shut the
server down, and close every registered client under the registry lock.
No entry is deleted from the registry, and nothing in the sources ever
sends on the `unregister` channel. -/
def Gateway.stop (g : GatewayM) : GatewayM :=
  { g with
    clients := g.clients.map (fun p => (p.1, p.2.close))
    agentRunning := false }

/-! ## Heartbeat manager (`pkg/gateway/heartbeat.go`) -/

/-- `gateway.HeartbeatConfig`; durations in seconds. -/
structure HeartbeatConfig where
  pingInterval : Nat
  pongTimeout : Nat
  idleTimeout : Nat
  checkInterval : Nat
deriving DecidableEq, Repr

/-- `gateway.DefaultHeartbeatConfig`: ping every 54 s, pong within 60 s,
idle timeout 5 min, idle check every 1 min. -/
def defaultHeartbeatConfig : HeartbeatConfig :=
  { pingInterval := 54, pongTimeout := 60, idleTimeout := 300, checkInterval := 60 }

/-- `Heartbeat.checkIdleClients`: close every registered client whose time
since last activity exceeds the idle timeout.  The registry keeps its
entries and the event bus is not touched (no event of any kind is
published by this path). -/
def checkIdleClients (cfg : HeartbeatConfig) (g : GatewayM) (now : Nat) : GatewayM :=
  { g with
    clients := g.clients.map (fun p =>
      if now - p.2.lastSeen > cfg.idleTimeout then (p.1, p.2.close) else p) }

/-! ## Concrete scenario values used by the theorems below -/

/-- A gateway holding one registered client, used to evaluate `Gateway.Stop`. -/
def gwC2 : GatewayM :=
  { id := "gateway-1"
    clients := [("conn-1", { id := "conn-1", conn := { id := "conn-1" } })]
    eventBus := newEventBus
    handler := defaultHandler }

/-- A gateway with one active client whose last activity was at time 0. -/
def gwC9 : GatewayM :=
  { id := "gw"
    clients := [("conn-1", { id := "conn-1", conn := { id := "conn-1" }, lastSeen := 0 })]
    eventBus := newEventBus
    handler := defaultHandler }

/-- A decoded request envelope with an empty correlation id. -/
def reqEmptyID : ProtocolMessage := { type := "req", id := "", method := "x" }

/-- A subscriber filtering on channel `"c2"` with no type filter. -/
def subC6 : EventSubscriberM :=
  { token := 0, id := "s", channel := "c2", eventTypes := [], callback := none }

/-- A bus whose only subscriber filters on channel `"c2"`. -/
def busC6 : EventBusM :=
  { subscribers := [subC6], seq := 0, nextToken := 1, closedTokens := [] }

/-- An event carried on channel `"c1"`. -/
def evC6 : EventM := ⟨"client.connected", "c1", .jsonVal "d", 1, 0⟩

/-- A subscriber with no filters and room in its queue. -/
def subC6b : EventSubscriberM :=
  { token := 1, id := "s2", channel := "", eventTypes := [], callback := none }

/-- A filler event for pre-filled queues. -/
def evFill : EventM := ⟨"t", "", .jsonVal "x", 0, 0⟩

/-- A matching subscriber whose queue is full and whose callback asks to
be dropped. -/
def subC5cex : EventSubscriberM :=
  { token := 0, id := "s", channel := "", eventTypes := []
    callback := some (fun _ => false), send := List.replicate 256 evFill }

/-- A bus holding only the full-queue, drop-requesting subscriber. -/
def busC5cex : EventBusM :=
  { subscribers := [subC5cex], seq := 0, nextToken := 1, closedTokens := [] }

/-- A callback-free matching subscriber with a full queue. -/
def subC5a : EventSubscriberM :=
  { token := 0, id := "a", channel := "", eventTypes := [], callback := none
    send := List.replicate 256 evFill }

/-- A callback-free matching subscriber with queue room. -/
def subC5b : EventSubscriberM :=
  { token := 1, id := "b", channel := "", eventTypes := [], callback := none }

/-- A bus with one full-queue subscriber and one with room, both
callback-free. -/
def busC5w : EventBusM :=
  { subscribers := [subC5a, subC5b], seq := 0, nextToken := 2, closedTokens := [] }

/-- A handshaken client for the C7 scenario. -/
def clC7 : ClientM :=
  { id := "conn-7", conn := { id := "conn-7" }, sessionID := "session-7" }

/-- The gateway serving the C7 scenario with the default handler table. -/
def gwC7 : GatewayM :=
  { id := "gw", clients := [("conn-7", clC7)], eventBus := newEventBus
    handler := defaultHandler }

/-- The unknown-method request of the spec's concrete scenario. -/
def msgC7 : ProtocolMessage := { type := "req", id := "2", method := "does.not.exist" }

/-- A freshly accepted client: no handshake yet (`sessionID` empty). -/
def clC1 : ClientM := { id := "conn-1", conn := { id := "conn-1" } }

/-- The gateway for the C1 scenario. -/
def gwC1 : GatewayM :=
  { id := "gw", clients := [("conn-1", clC1)], eventBus := newEventBus
    handler := defaultHandler }

/-- A `ping` request sent before any handshake. -/
def pingMsgC1 : ProtocolMessage :=
  { type := "req", id := "1", method := "ping"
    params := .jsonObj { deviceID := "" } 7 }

/-- A fresh client for the C3 scenario (no session yet). -/
def clC3 : ClientM := { id := "conn-3", conn := { id := "conn-3" } }

/-- The gateway for the C3 scenario. -/
def gwC3 : GatewayM :=
  { id := "gw", clients := [("conn-3", clC3)], eventBus := newEventBus
    handler := defaultHandler }

/-- A valid `connect` request. -/
def connMsgC3 : ProtocolMessage :=
  { type := "req", id := "1", method := "connect"
    params := .jsonObj { deviceID := "d1", clientID := "cl1", version := "1.0" } 0 }

/-- Bus invariant: every subscriber's observed sequence numbers (received
then still-queued) are strictly increasing, and all of them are bounded by
the bus counter. -/
def BusInv (bus : EventBusM) : Prop :=
  ∀ sub ∈ bus.subscribers,
    List.Chain' (· < ·) (obsSeqs sub) ∧ ∀ n ∈ obsSeqs sub, n ≤ bus.seq

/-- A default subscriber value (used only as the `getD` fallback). -/
def defaultSub : EventSubscriberM :=
  { token := 0, id := "", channel := "", eventTypes := [], callback := none }

/-- A concrete bus history: one subscriber, three publishes (one dropped
by a marshal failure), one channel read. -/
def opsC4 : List BusOp :=
  [.subscribeOp "s1" "" [] none,
   .publishOp "client.connected" "" .nilData,
   .publishOp "x" "" .badVal,
   .publishDataOp "y" "" (.jsonVal "d"),
   .consumeOp 0,
   .publishOp "z" "" (.jsonVal "e")]

/-! ## Helper lemmas -/

/-- After filtering a token out of the subscriber list, no subscriber with
that token remains. -/
lemma any_token_filter (l : List EventSubscriberM) (tok : Nat) :
    (l.filter (fun s => !(s.token == tok))).any (fun s => s.token == tok) = false := by
  induction l with
  | nil => rfl
  | cons s rest ih =>
    by_cases h : s.token == tok
    · simp [List.filter_cons, h, ih]
    · simp [List.filter_cons, h, List.any_cons, ih]

/-! ## C10 — Unsubscribe is idempotent -/

/-- C10: `EventBus.Unsubscribe` is idempotent.  A second call on an
already-removed subscription finds it absent from the registered set, so
it leaves the bus (including the ghost record of closed delivery channels)
entirely unchanged — in particular the delivery channel is not closed a
second time. -/
theorem c10_unsubscribe_idempotent (bus : EventBusM) (tok : Nat) :
    (bus.unsubscribe tok).unsubscribe tok = bus.unsubscribe tok := by
  by_cases h : bus.subscribers.any (fun s => s.token == tok) = true
  · simp [EventBusM.unsubscribe, h, any_token_filter]
  · simp [EventBusM.unsubscribe, h]

/-! ## C2 — registry entries are not deleted when connections close -/

/-- C2 (code bug evidence): `Gateway.Stop` closes every client but deletes
no registry entry — the registry keeps exactly its old entries, so after
shutdown a closed connection is still listed as a registered client
(concretely: stopping a gateway with one client leaves that client
registered, status `disconnected`, with its connection context cancelled). -/
theorem c2_registry_after_stop :
    (∀ g : GatewayM, (Gateway.stop g).clients.length = g.clients.length) ∧
    (Gateway.stop gwC2).clients.map (fun p => (p.1, p.2.status, p.2.conn.ctxDone))
      = [("conn-1", "disconnected", true)] := by
  refine ⟨fun g => ?_, rfl⟩
  simp [Gateway.stop]

/-! ## C9 — idle eviction closes the client but publishes no event -/

/-- C9 (code bug evidence): with the default config (idle timeout 300 s,
check interval 60 s), an idle check at `now = 301` closes the client whose
last activity was at 0 — but the event bus is completely untouched (same
state, sequence counter still 0): no `client.disconnected` event is
published by the idle-eviction path, and the registry entry is not
removed either. -/
theorem c9_idle_close_without_event :
    ((checkIdleClients defaultHeartbeatConfig gwC9 301).clients.map
        (fun p => (p.1, p.2.status, p.2.conn.ctxDone))
      = [("conn-1", "disconnected", true)]) ∧
    (checkIdleClients defaultHeartbeatConfig gwC9 301).eventBus = gwC9.eventBus ∧
    (checkIdleClients defaultHeartbeatConfig gwC9 301).eventBus.seq = 0 :=
  ⟨rfl, rfl, rfl⟩

/-! ## C8 — the empty-id check is on Encode, not Decode -/

/-- C8 counterexample: `Serializer.Unmarshal` accepts a well-formed
`request` message whose `id` is empty — it does not fail with the
missing-correlation-id error the claim requires. -/
theorem c8_counterexample :
    Serializer.unmarshal (.wellFormed reqEmptyID) = .ok reqEmptyID ∧
    Serializer.unmarshal (.wellFormed reqEmptyID) ≠ .error SerErr.missingID := by
  refine ⟨rfl, fun h => ?_⟩
  rw [show Serializer.unmarshal (.wellFormed reqEmptyID) = .ok reqEmptyID from rfl] at h
  exact Except.noConfusion h

/-- C8 amended: Decode fails on empty input (`ErrInvalidMessage`) and on
malformed data (the propagated JSON error), fails with `ErrInvalidType`
exactly when the decoded kind is not one of `req`/`res`/`event`, and
otherwise succeeds — even for a request with an empty id.  The
missing-correlation-id check is performed by Encode (`Serializer.Marshal`),
which rejects a request with an empty id with `ErrMissingID`. -/
theorem c8_amended :
    (Serializer.unmarshal .emptyBytes = .error .invalidMessage) ∧
    (Serializer.unmarshal .malformedBytes = .error .malformedEnvelope) ∧
    (∀ msg : ProtocolMessage,
      Serializer.unmarshal (.wellFormed msg) =
        if msg.type = typeReq ∨ msg.type = typeRes ∨ msg.type = typeEvent then
          .ok msg
        else
          .error .invalidType) ∧
    (∀ msg : ProtocolMessage,
      msg.type = typeReq → msg.id = "" →
      Serializer.marshal (some msg) = .error .missingID) ∧
    (Serializer.marshal none = .error .invalidMessage) := by
  refine ⟨rfl, rfl, fun msg => ?_, fun msg h1 h2 => ?_, rfl⟩
  · by_cases h : msg.type = typeReq ∨ msg.type = typeRes ∨ msg.type = typeEvent
    · simp [Serializer.unmarshal, h]
    · simp [Serializer.unmarshal, h]
  · simp [Serializer.marshal, h1, h2, typeReq, typeRes, typeEvent]

/-- C8 amended witness: the Encode-side check concretely rejects the
empty-id request that Decode accepts. -/
theorem c8_amended_witness :
    reqEmptyID.type = typeReq ∧ reqEmptyID.id = "" ∧
    Serializer.marshal (some reqEmptyID) = .error .missingID :=
  ⟨rfl, rfl, c8_amended.2.2.2.1 reqEmptyID rfl rfl⟩

/-! ## C6 — the event/subscription matching rule -/

/-- C6: the delivery decision of `Publish` is exactly the filtering rule.
`matchFilter` holds iff (the channel filter is empty or equals the event's
channel) and (the type filter is empty or contains the event's type); the
per-subscriber delivery step leaves a non-matching subscriber completely
untouched and enqueues the event for a matching subscriber with queue
room; and concretely, publishing on channel `"c1"` to a bus whose
subscriber filters on `"c2"` yields zero deliveries to that subscriber. -/
theorem c6_filter_rule :
    (∀ (sub : EventSubscriberM) (t ch : String),
      matchFilter sub t ch = true ↔
        ((sub.channel = "" ∨ sub.channel = ch) ∧
          (sub.eventTypes = [] ∨ t ∈ sub.eventTypes))) ∧
    (∀ (ev : EventM) (sub : EventSubscriberM),
      matchFilter sub ev.type ev.channel = false → deliverTo ev sub = some sub) ∧
    (∀ (ev : EventM) (sub : EventSubscriberM),
      matchFilter sub ev.type ev.channel = true → sub.send.length < subQueueCap →
      deliverTo ev sub = some { sub with send := sub.send ++ [ev] }) ∧
    ((busC6.publish "client.connected" "c1" (.jsonVal "d")).subscribers.map
        EventSubscriberM.send = [[]]) := by
  refine ⟨fun sub t ch => ?_, fun ev sub h => ?_, fun ev sub h hroom => ?_, rfl⟩
  · unfold matchFilter
    split_ifs with h1 h2
    · simp only [Bool.false_eq_true, false_iff]
      rintro ⟨h3 | h3, -⟩
      · exact h1.1 h3
      · exact h1.2 h3
    · rw [not_and_or, not_ne_iff, not_ne_iff] at h1
      have h2' : sub.eventTypes ≠ [] := by
        intro hnil
        rw [hnil] at h2
        simp at h2
      simp [List.elem_iff, h1, h2']
    · rw [not_and_or, not_ne_iff, not_ne_iff] at h1
      have h2' : sub.eventTypes = [] :=
        List.length_eq_zero.mp (Nat.eq_zero_of_not_pos h2)
      simp [h1, h2']
  · simp [deliverTo, h]
  · simp [deliverTo, h, hroom]

/-- C6 witness: the matching rule applied at concrete inputs — the
channel-`"c1"` event is not delivered to the `"c2"`-filtering subscriber,
and is enqueued for an unfiltered subscriber with queue room. -/
theorem c6_witness :
    (matchFilter subC6 "client.connected" "c1" = false) ∧
    deliverTo evC6 subC6 = some subC6 ∧
    deliverTo evC6 subC6b = some { subC6b with send := [evC6] } :=
  ⟨by decide, c6_filter_rule.2.1 evC6 subC6 (by decide),
    c6_filter_rule.2.2.1 evC6 subC6b (by decide) (by decide)⟩

/-! ## C5 — behaviour on a full subscriber queue -/

set_option maxRecDepth 4096 in
/-- C5 counterexample: publishing to a subscriber whose queue is full does
not merely drop the delivery — when the subscriber has a callback and the
callback returns false, `Publish` removes the subscription from the bus
(here the only subscriber, with a full 256-entry queue, is gone after one
publish), contradicting the claim that a full queue never escalates. -/
theorem c5_counterexample :
    busC5cex.subscribers.length = 1 ∧
    busC5cex.subscribers.map (fun s => s.send.length) = [256] ∧
    (busC5cex.publish "t" "" (.jsonVal "d")).subscribers.length = 0 :=
  ⟨rfl, by decide, by decide⟩

/-- C5 amended: for subscribers without callbacks (the only kind the rest
of this repository ever registers), `Publish` behaves exactly as the claim
says: it is a pure per-subscriber map — a full queue means the delivery is
dropped and the subscriber is left untouched (never removed), every other
matching subscriber with queue room still gets the event, no subscriber
count changes, and the (total, non-blocking) publisher is never stalled.
When a subscriber has a callback, a full queue instead hands the event to
the callback and removes the subscription if the callback returns false
(see the counterexample). -/
theorem c5_amended (bus : EventBusM) (t ch s : String)
    (hcb : ∀ sub ∈ bus.subscribers, sub.callback.isNone = true) :
    ((bus.publish t ch (.jsonVal s)).subscribers
      = bus.subscribers.map (fun sub =>
          if matchFilter sub t ch = true ∧ sub.send.length < subQueueCap then
            { sub with send := sub.send ++ [⟨t, ch, .jsonVal s, bus.seq + 1, 0⟩] }
          else sub)) ∧
    (bus.publish t ch (.jsonVal s)).subscribers.length = bus.subscribers.length := by
  have key : ∀ l : List EventSubscriberM, (∀ sub ∈ l, sub.callback.isNone = true) →
      l.filterMap (deliverTo ⟨t, ch, .jsonVal s, bus.seq + 1, 0⟩)
        = l.map (fun sub =>
            if matchFilter sub t ch = true ∧ sub.send.length < subQueueCap then
              { sub with send := sub.send ++ [⟨t, ch, .jsonVal s, bus.seq + 1, 0⟩] }
            else sub) := by
    intro l hl
    induction l with
    | nil => rfl
    | cons a rest ih =>
      have ha : a.callback = none :=
        Option.isNone_iff_eq_none.mp (hl a (List.Mem.head _))
      have hrest := ih (fun sub hsub => hl sub (List.Mem.tail _ hsub))
      rw [List.filterMap_cons, List.map_cons]
      by_cases hm : matchFilter a t ch = true
      · by_cases hr : a.send.length < subQueueCap
        · simp only [deliverTo, hm, hr, if_pos, Bool.true_eq_false, if_neg,
            if_true, hrest]
          simp [hm, hr]
        · simp only [deliverTo, hm, Bool.true_eq_false, if_neg, hr, if_false, ha]
          simp [hm, hr, hrest]
      · have hm' : matchFilter a t ch = false := Bool.eq_false_iff.mpr hm
        simp [deliverTo, hm', hm, hrest]
  constructor
  · exact key bus.subscribers hcb
  · rw [show (bus.publish t ch (.jsonVal s)).subscribers
        = bus.subscribers.filterMap (deliverTo ⟨t, ch, .jsonVal s, bus.seq + 1, 0⟩)
      from rfl, key bus.subscribers hcb, List.length_map]

set_option maxRecDepth 4096 in
/-- C5 amended witness: on a concrete bus with a full callback-free
subscriber and a second subscriber with room, a publish removes nobody. -/
theorem c5_amended_witness :
    (∀ sub ∈ busC5w.subscribers, sub.callback.isNone = true) ∧
    (busC5w.publish "t" "" (.jsonVal "d")).subscribers.length
      = busC5w.subscribers.length :=
  ⟨by decide, (c5_amended busC5w "t" "" "d" (by decide)).2⟩

/-! ## C7 — unknown methods get an error response, connection stays open -/

/-- C7: a request from a handshaken client whose method has no registered
handler (and is none of the gateway's built-in routes) is answered with a
response carrying the same correlation id, `ok = false` and error text
`unknown method: <method>`, enqueued on that client's outbound queue; the
connection's context is not cancelled — the request is not treated as a
protocol fault. -/
theorem c7_unknown_method (g : GatewayM) (c : ClientM) (msg : ProtocolMessage)
    (now : Nat)
    (_hses : c.sessionID ≠ "")
    (htype : msg.type = typeReq) (hm : msg.method ≠ "")
    (hnot : msg.method ∉ ["agent.start", "agent.stop", "agent.status", "connect"])
    (hlook : lookupHandler g.handler msg.method = none)
    (hopen : c.conn.ctxDone = false)
    (hroom : c.conn.sendQueue.length < sendCap) :
    (Gateway.handleMessage g c msg now).client.conn.sendQueue
      = c.conn.sendQueue ++
        [OutMsg.response msg.id false .nullPayload ("unknown method: " ++ msg.method)] ∧
    (Gateway.handleMessage g c msg now).client.conn.ctxDone = false := by
  simp only [List.mem_cons, List.not_mem_nil, or_false, not_or] at hnot
  obtain ⟨h1, h2, h3, h4⟩ := hnot
  rw [show Gateway.handleMessage g c msg now
      = ⟨g, { { c with lastSeen := now } with
              conn := (Handler.handleMessage g.handler c.conn now msg).1 },
          (Handler.handleMessage g.handler c.conn now msg).2⟩ from by
    simp [Gateway.handleMessage, htype, h1, h2, h3, h4]]
  rw [show Handler.handleMessage g.handler c.conn now msg
      = Handler.handleRequest g.handler c.conn now msg from by
    simp [Handler.handleMessage, htype, hm]]
  rw [Handler.handleRequest, hlook]
  simp [Conn.writeResponse, Conn.write, hopen, hroom]

/-- C7 witness: the concrete scenario — `does.not.exist` after handshake
yields `ok=false` with error `unknown method: does.not.exist` and the
connection stays open. -/
theorem c7_witness :
    lookupHandler gwC7.handler "does.not.exist" = none ∧
    (Gateway.handleMessage gwC7 clC7 msgC7 9).client.conn.sendQueue
      = [OutMsg.response "2" false .nullPayload "unknown method: does.not.exist"] ∧
    (Gateway.handleMessage gwC7 clC7 msgC7 9).client.conn.ctxDone = false := by
  have h := c7_unknown_method gwC7 clC7 msgC7 9 (by decide) rfl (by decide)
    (by decide) rfl rfl (by decide)
  exact ⟨rfl, h.1, h.2⟩

/-! ## C1 — there is no handshake gating in the dispatch path -/

/-- Writing to an outbound queue never cancels the connection context. -/
lemma write_ctxDone (c : ConnState) (m : OutMsg) :
    ((Conn.write c m).1).ctxDone = c.ctxDone := by
  unfold Conn.write
  split_ifs <;> rfl

/-- `WriteResponse` never cancels the connection context. -/
lemma writeResponse_ctxDone (c : ConnState) (id : String) (ok : Bool)
    (p : PayloadVal) (e : String) :
    ((Conn.writeResponse c id ok p e).1).ctxDone = c.ctxDone :=
  write_ctxDone c _

/-- The ws `connect` handler never cancels the connection context. -/
lemma connectHandlerFn_ctxDone (conn : ConnState) (now : Nat)
    (msg : ProtocolMessage) :
    ((connectHandlerFn conn now msg).1).ctxDone = conn.ctxDone := by
  cases hd : decodeConnect msg.params with
  | error e => simp [connectHandlerFn, hd]
  | ok r =>
    cases hv : ConnectRequest.validate r with
    | none => simp [connectHandlerFn, hd, hv, write_ctxDone]
    | some e => simp [connectHandlerFn, hd, hv]

/-- The ws `ping` handler never cancels the connection context. -/
lemma pingHandlerFn_ctxDone (conn : ConnState) (now : Nat)
    (msg : ProtocolMessage) :
    ((pingHandlerFn conn now msg).1).ctxDone = conn.ctxDone := by
  cases hd : decodePing msg.params with
  | error e => simp [pingHandlerFn, hd]
  | ok s => simp [pingHandlerFn, hd, Conn.writeResponse, write_ctxDone]

/-- The ws `state` handler never cancels the connection context. -/
lemma stateHandlerFn_ctxDone (conn : ConnState) (now : Nat)
    (msg : ProtocolMessage) :
    ((stateHandlerFn conn now msg).1).ctxDone = conn.ctxDone := by
  cases hd : decodeState msg.params with
  | error e => simp [stateHandlerFn, hd]
  | ok u => simp [stateHandlerFn, hd, Conn.writeResponse, write_ctxDone]

/-- The default handler table, as the literal association list. -/
lemma defaultHandler_handlers :
    defaultHandler.handlers =
      [("connect", connectHandlerFn), ("ping", pingHandlerFn),
        ("state", stateHandlerFn)] := rfl

/-- Lookup in the default handler table, by cases on the method name. -/
lemma lookup_default (m : String) :
    lookupHandler defaultHandler m =
      if m = "connect" then some connectHandlerFn
      else if m = "ping" then some pingHandlerFn
      else if m = "state" then some stateHandlerFn
      else none := by
  by_cases h1 : m = "connect"
  · simp [lookupHandler, defaultHandler_handlers, List.lookup, beq_iff_eq.mpr h1, h1]
  · by_cases h2 : m = "ping"
    · simp [lookupHandler, defaultHandler_handlers, List.lookup,
        beq_eq_false_iff_ne.mpr h1, beq_iff_eq.mpr h2, h1, h2]
    · by_cases h3 : m = "state"
      · simp [lookupHandler, defaultHandler_handlers, List.lookup,
          beq_eq_false_iff_ne.mpr h1, beq_eq_false_iff_ne.mpr h2,
          beq_iff_eq.mpr h3, h1, h2, h3]
      · simp [lookupHandler, defaultHandler_handlers, List.lookup,
          beq_eq_false_iff_ne.mpr h1, beq_eq_false_iff_ne.mpr h2,
          beq_eq_false_iff_ne.mpr h3, h1, h2, h3]

/-- Request dispatch through the default handler table never cancels the
connection context. -/
lemma handleRequest_default_ctxDone (conn : ConnState) (now : Nat)
    (msg : ProtocolMessage) :
    ((Handler.handleRequest defaultHandler conn now msg).1).ctxDone = conn.ctxDone := by
  have hstep : ∀ (f : HandlerFn),
      (∀ cn, ((f cn now msg).1).ctxDone = cn.ctxDone) →
      lookupHandler defaultHandler msg.method = some f →
      ((Handler.handleRequest defaultHandler conn now msg).1).ctxDone = conn.ctxDone := by
    intro f hf hlk
    cases hres : f conn now msg with
    | mk conn' err =>
      have hc' : conn'.ctxDone = conn.ctxDone := by
        have h0 := hf conn
        rw [hres] at h0
        exact h0
      cases err with
      | none => simp [Handler.handleRequest, hlk, hres, hc']
      | some e =>
        simp [Handler.handleRequest, hlk, hres, Conn.writeResponse, write_ctxDone, hc']
  by_cases h1 : msg.method = "connect"
  · exact hstep connectHandlerFn (fun cn => connectHandlerFn_ctxDone cn now msg)
      (by simp [lookup_default, h1])
  · by_cases h2 : msg.method = "ping"
    · exact hstep pingHandlerFn (fun cn => pingHandlerFn_ctxDone cn now msg)
        (by simp [lookup_default, h1, h2])
    · by_cases h3 : msg.method = "state"
      · exact hstep stateHandlerFn (fun cn => stateHandlerFn_ctxDone cn now msg)
          (by simp [lookup_default, h1, h2, h3])
      · have hlk : lookupHandler defaultHandler msg.method = none := by
          simp [lookup_default, h1, h2, h3]
        simp [Handler.handleRequest, hlk, Conn.writeResponse, write_ctxDone]

/-- The whole gateway dispatch path (with the gateway's default handler
table) never cancels a connection context, whatever the message. -/
lemma handleMessage_ctxDone (g : GatewayM) (c : ClientM) (msg : ProtocolMessage)
    (now : Nat) (hh : g.handler = defaultHandler) :
    (Gateway.handleMessage g c msg now).client.conn.ctxDone = c.conn.ctxDone := by
  by_cases ht : msg.type = typeReq
  case neg =>
    simp [Gateway.handleMessage, Handler.handleMessage, ht]
  case pos =>
    by_cases h1 : msg.method = "agent.start"
    · cases hd : decodeAgentConfig msg.params with
      | error e =>
        simp [Gateway.handleMessage, ht, h1, Gateway.handleAgentStart, hd]
      | ok u =>
        by_cases hr : g.agentRunning
        · simp [Gateway.handleMessage, ht, h1, Gateway.handleAgentStart, hd, hr]
        · simp [Gateway.handleMessage, ht, h1, Gateway.handleAgentStart, hd, hr,
            Conn.writeResponse, write_ctxDone]
    · by_cases h2 : msg.method = "agent.stop"
      · by_cases hr : g.agentRunning
        · simp [Gateway.handleMessage, ht, h1, h2, Gateway.handleAgentStop, hr,
            Conn.writeResponse, write_ctxDone]
        · simp [Gateway.handleMessage, ht, h1, h2, Gateway.handleAgentStop, hr]
      · by_cases h3 : msg.method = "agent.status"
        · simp [Gateway.handleMessage, ht, h1, h2, h3, Gateway.handleAgentStatus,
            Conn.writeResponse, write_ctxDone]
        · by_cases h4 : msg.method = "connect"
          · cases hd : decodeConnect msg.params with
            | error e =>
              simp [Gateway.handleMessage, ht, h1, h2, h3, h4,
                Gateway.handleConnect, hd]
            | ok r =>
              cases hv : ConnectRequest.validate r with
              | some e =>
                simp [Gateway.handleMessage, ht, h1, h2, h3, h4,
                  Gateway.handleConnect, hd, hv]
              | none =>
                simp [Gateway.handleMessage, ht, h1, h2, h3, h4,
                  Gateway.handleConnect, hd, hv, write_ctxDone]
          · by_cases h5 : msg.method = ""
            · simp [Gateway.handleMessage, ht, h1, h2, h3, h4, h5,
                Handler.handleMessage]
            · simp [Gateway.handleMessage, ht, h1, h2, h3, h4, h5,
                Handler.handleMessage, hh, handleRequest_default_ctxDone]

/-- C1 counterexample: a client that has not completed any handshake
(`sessionID` empty) sends a `ping` request as its first message; the hub
routes it to the ping handler, which answers `ok = true`, and the
connection stays open — the message is not rejected and nothing resembling
a `HandshakeRequired` close happens (no such error exists in the code). -/
theorem c1_counterexample :
    clC1.sessionID = "" ∧
    (Gateway.handleMessage gwC1 clC1 pingMsgC1 5).client.conn.sendQueue
      = [OutMsg.response "1" true (.pingPayload 7) ""] ∧
    (Gateway.handleMessage gwC1 clC1 pingMsgC1 5).client.conn.ctxDone = false :=
  ⟨rfl, by decide, by decide⟩

/-- C1 amended: the dispatch path has no handshake gating at all.  First,
dispatch never closes a connection (with the gateway's default handler
table, the connection context is preserved for every message, from every
client, handshaken or not).  Second, a client still in the pre-handshake
state (`sessionID` empty) that sends a `ping` request has it routed to the
registered ping handler and answered with an `ok = true` pong on its
outbound queue, exactly as for a handshaken client. -/
theorem c1_no_handshake_gating :
    (∀ (g : GatewayM) (c : ClientM) (msg : ProtocolMessage) (now : Nat),
      g.handler = defaultHandler →
      (Gateway.handleMessage g c msg now).client.conn.ctxDone = c.conn.ctxDone) ∧
    (∀ (g : GatewayM) (c : ClientM) (r : ConnectRequest) (pseq : Int)
        (mid : String) (now : Nat),
      g.handler = defaultHandler →
      c.sessionID = "" →
      c.conn.ctxDone = false →
      c.conn.sendQueue.length < sendCap →
      (Gateway.handleMessage g c
          { type := typeReq, id := mid, method := "ping"
            params := .jsonObj r pseq } now).client.conn.sendQueue
        = c.conn.sendQueue ++ [OutMsg.response mid true (.pingPayload pseq) ""]) := by
  constructor
  · exact fun g c msg now hh => handleMessage_ctxDone g c msg now hh
  · intro g c r pseq mid now hh _hses hopen hroom
    rw [show Gateway.handleMessage g c
          { type := typeReq, id := mid, method := "ping"
            params := .jsonObj r pseq } now
        = ⟨g, { { c with lastSeen := now } with
                conn := (Handler.handleRequest g.handler c.conn now
                  { type := typeReq, id := mid, method := "ping"
                    params := .jsonObj r pseq }).1 },
            (Handler.handleRequest g.handler c.conn now
              { type := typeReq, id := mid, method := "ping"
                params := .jsonObj r pseq }).2⟩ from by
      simp +decide [Gateway.handleMessage, Handler.handleMessage]]
    rw [hh, Handler.handleRequest]
    rw [show lookupHandler defaultHandler
        ({ type := typeReq, id := mid, method := "ping"
           params := .jsonObj r pseq } : ProtocolMessage).method
      = some pingHandlerFn from by simp [lookup_default]]
    simp [pingHandlerFn, decodePing, Conn.writeResponse, Conn.write, hopen, hroom]

/-- C1 amended witness: the concrete pre-handshake ping is answered. -/
theorem c1_no_handshake_gating_witness :
    gwC1.handler = defaultHandler ∧ clC1.sessionID = "" ∧
    (Gateway.handleMessage gwC1 clC1
        { type := typeReq, id := "1", method := "ping"
          params := .jsonObj { deviceID := "" } 7 } 5).client.conn.sendQueue
      = [OutMsg.response "1" true (.pingPayload 7) ""] :=
  ⟨rfl, rfl,
    c1_no_handshake_gating.2 gwC1 clC1 { deviceID := "" } 7 "1" 5 rfl rfl rfl
      (by decide)⟩

/-! ## C3 — session identifier minting -/

/-- C3 counterexample: the first successful `connect` (processed at nano
timestamp 1) mints session `session-1`; a second `connect` on the same
connection (at timestamp 2) is processed again by `handleConnect` and
replaces the session identifier with the freshly minted `session-2` — so a
later message on the same connection does change the session identifier,
contrary to the claim. -/
theorem c3_counterexample :
    ((Gateway.handleMessage gwC3 clC3 connMsgC3 1).client.sessionID = "session-1") ∧
    ((Gateway.handleMessage (Gateway.handleMessage gwC3 clC3 connMsgC3 1).gw
        (Gateway.handleMessage gwC3 clC3 connMsgC3 1).client
        connMsgC3 2).client.sessionID = "session-2") ∧
    ("session-2" ≠ "session-1") :=
  ⟨by decide, by decide, by decide⟩

/-- C3 amended: each successful `connect` handshake mints exactly one
session identifier, derived from the processing time (`session-<nano>`),
and no message other than a `connect` request ever changes the session
identifier — but a later successful `connect` request on the same
connection mints a fresh identifier and replaces the old one (see the
counterexample).  A failed `connect` (undecodable params or empty device
id) leaves the session identifier unchanged as well. -/
theorem c3_session_mint :
    (∀ (g : GatewayM) (c : ClientM) (msg : ProtocolMessage) (now : Nat)
        (r : ConnectRequest),
      msg.type = typeReq → msg.method = "connect" →
      decodeConnect msg.params = .ok r → r.deviceID ≠ "" →
      (Gateway.handleMessage g c msg now).client.sessionID
        = "session-" ++ toString now) ∧
    (∀ (g : GatewayM) (c : ClientM) (msg : ProtocolMessage) (now : Nat),
      ¬(msg.type = typeReq ∧ msg.method = "connect") →
      (Gateway.handleMessage g c msg now).client.sessionID = c.sessionID) ∧
    (∀ (g : GatewayM) (c : ClientM) (msg : ProtocolMessage) (now : Nat),
      msg.type = typeReq → msg.method = "connect" →
      (∀ r, decodeConnect msg.params = .ok r → r.deviceID = "") →
      (Gateway.handleMessage g c msg now).client.sessionID = c.sessionID) := by
  refine ⟨?_, ?_, ?_⟩
  · intro g c msg now r ht hm hd hdev
    have hv : ConnectRequest.validate r = none := by
      simp [ConnectRequest.validate, hdev]
    simp [Gateway.handleMessage, ht, hm, Gateway.handleConnect, hd, hv]
  · intro g c msg now hnc
    by_cases ht : msg.type = typeReq
    case neg =>
      simp [Gateway.handleMessage, Handler.handleMessage, ht]
    case pos =>
      have hm : msg.method ≠ "connect" := fun hm => hnc ⟨ht, hm⟩
      by_cases h1 : msg.method = "agent.start"
      · cases hd : decodeAgentConfig msg.params with
        | error e => simp [Gateway.handleMessage, ht, h1, Gateway.handleAgentStart, hd]
        | ok u =>
          by_cases hr : g.agentRunning
          · simp [Gateway.handleMessage, ht, h1, Gateway.handleAgentStart, hd, hr]
          · simp [Gateway.handleMessage, ht, h1, Gateway.handleAgentStart, hd, hr]
      · by_cases h2 : msg.method = "agent.stop"
        · by_cases hr : g.agentRunning
          · simp [Gateway.handleMessage, ht, h1, h2, Gateway.handleAgentStop, hr]
          · simp [Gateway.handleMessage, ht, h1, h2, Gateway.handleAgentStop, hr]
        · by_cases h3 : msg.method = "agent.status"
          · simp [Gateway.handleMessage, ht, h1, h2, h3, Gateway.handleAgentStatus]
          · simp [Gateway.handleMessage, ht, h1, h2, h3, hm, Handler.handleMessage]
  · intro g c msg now ht hm hfail
    cases hd : decodeConnect msg.params with
    | error e => simp [Gateway.handleMessage, ht, hm, Gateway.handleConnect, hd]
    | ok r =>
      have hv : ConnectRequest.validate r = some "missing device id" := by
        simp [ConnectRequest.validate, hfail r hd]
      simp [Gateway.handleMessage, ht, hm, Gateway.handleConnect, hd, hv]

/-- C3 amended witness: the concrete valid connect at time 1 mints
`session-1`, and a ping afterwards leaves the session unchanged. -/
theorem c3_session_mint_witness :
    ((Gateway.handleMessage gwC3 clC3 connMsgC3 1).client.sessionID = "session-1") ∧
    ((Gateway.handleMessage gwC3 clC3 pingMsgC1 5).client.sessionID
      = clC3.sessionID) := by
  constructor
  · have h := c3_session_mint.1 gwC3 clC3 connMsgC3 1
      { deviceID := "d1", clientID := "cl1", version := "1.0" } rfl rfl rfl
      (by decide)
    exact h
  · exact c3_session_mint.2.1 gwC3 clC3 pingMsgC1 5 (by decide)

/-! ## C4 — per-subscriber sequence numbers are strictly increasing -/

/-- The fresh bus satisfies the invariant. -/
lemma newEventBus_inv : BusInv newEventBus := by
  intro sub h
  cases h

/-- A delivery step either leaves a subscriber's observations unchanged or
appends the new event's sequence number. -/
lemma deliverTo_obs (ev : EventM) (sub sub' : EventSubscriberM)
    (h : deliverTo ev sub = some sub') :
    obsSeqs sub' = obsSeqs sub ∨ obsSeqs sub' = obsSeqs sub ++ [ev.seq] := by
  unfold deliverTo at h
  split_ifs at h with h1 h2
  · left
    cases h
    rfl
  · right
    cases h
    simp [obsSeqs]
  · cases hc : sub.callback with
    | none =>
      rw [hc] at h
      left
      cases h
      rfl
    | some cb =>
      rw [hc] at h
      have h' : (if cb ev = true then some sub else none) = some sub' := h
      by_cases h3 : cb ev = true
      · rw [if_pos h3] at h'
        left
        cases h'
        rfl
      · rw [if_neg h3] at h'
        cases h'

/-- Appending the next counter value to a strictly increasing, bounded
list keeps it strictly increasing. -/
lemma chain_append_next (l : List Nat) (s : Nat)
    (hch : List.Chain' (· < ·) l) (hb : ∀ n ∈ l, n ≤ s) :
    List.Chain' (· < ·) (l ++ [s + 1]) := by
  rw [List.chain'_append]
  refine ⟨hch, List.chain'_singleton _, ?_⟩
  intro x hx y hy
  simp only [List.head?_cons, Option.mem_def, Option.some.injEq] at hy
  subst hy
  have hxl : x ∈ l := List.mem_of_mem_getLast? hx
  have := hb x hxl
  omega

/-- Delivering the next event preserves the bus invariant. -/
lemma businv_deliver (bus : EventBusM) (t ch : String) (d : DataVal)
    (hInv : BusInv bus) :
    BusInv { bus with
      seq := bus.seq + 1
      subscribers := bus.subscribers.filterMap (deliverTo ⟨t, ch, d, bus.seq + 1, 0⟩) } := by
  intro sub' hmem
  simp only [List.mem_filterMap] at hmem
  obtain ⟨sub, hsub, hdel⟩ := hmem
  obtain ⟨hch, hb⟩ := hInv sub hsub
  rcases deliverTo_obs _ _ _ hdel with h | h
  · rw [h]
    exact ⟨hch, fun n hn => (hb n hn).trans (Nat.le_succ _)⟩
  · rw [h]
    constructor
    · exact chain_append_next _ _ hch hb
    · intro n hn
      rcases List.mem_append.mp hn with h1 | h1
      · exact (hb n h1).trans (Nat.le_succ _)
      · simp only [List.mem_singleton] at h1
        subst h1
        exact Nat.le_refl _

/-- The ghost consume step does not change what a subscriber observes. -/
lemma consumeSub_obs (sub : EventSubscriberM) :
    obsSeqs (consumeSub sub) = obsSeqs sub := by
  unfold consumeSub
  cases hs : sub.send with
  | nil => rfl
  | cons e rest => simp [obsSeqs, hs]

/-- Every subscriber after a consume step observes the same sequence as
some subscriber before it. -/
lemma mem_consumeAt (l : List EventSubscriberM) (i : Nat)
    (sub : EventSubscriberM) (h : sub ∈ consumeAt l i) :
    ∃ sub0 ∈ l, obsSeqs sub = obsSeqs sub0 := by
  induction l generalizing i with
  | nil => cases h
  | cons a rest ih =>
    cases i with
    | zero =>
      rcases List.mem_cons.mp h with rfl | h'
      · exact ⟨a, List.Mem.head _, consumeSub_obs a⟩
      · exact ⟨sub, List.Mem.tail _ h', rfl⟩
    | succ n =>
      rcases List.mem_cons.mp h with rfl | h'
      · exact ⟨sub, List.Mem.head _, rfl⟩
      · obtain ⟨s0, hs0, hobs⟩ := ih n h'
        exact ⟨s0, List.Mem.tail _ hs0, hobs⟩

/-- Every bus operation preserves the invariant. -/
lemma businv_step (bus : EventBusM) (op : BusOp) (h : BusInv bus) :
    BusInv (applyBusOp bus op) := by
  cases op with
  | publishOp t ch d =>
    show BusInv (bus.publish t ch d)
    unfold EventBusM.publish
    cases hm : marshalData d with
    | none => exact h
    | some dr => exact businv_deliver bus t ch dr h
  | publishDataOp t ch d =>
    exact businv_deliver bus t ch d h
  | subscribeOp id ch types cb =>
    intro sub hmem
    simp only [applyBusOp, EventBusM.subscribe, List.mem_append,
      List.mem_singleton] at hmem
    rcases hmem with hmem | rfl
    · exact h sub hmem
    · simp [obsSeqs]
  | unsubscribeOp tok =>
    intro sub hmem
    by_cases hc : bus.subscribers.any (fun s => s.token == tok) = true
    · simp only [applyBusOp, EventBusM.unsubscribe, if_pos hc] at hmem ⊢
      exact h sub (List.mem_of_mem_filter hmem)
    · simp only [applyBusOp, EventBusM.unsubscribe, if_neg hc] at hmem ⊢
      exact h sub hmem
  | consumeOp i =>
    intro sub hmem
    simp only [applyBusOp] at hmem
    obtain ⟨sub0, hsub0, hobs⟩ := mem_consumeAt _ _ _ hmem
    obtain ⟨hch, hb⟩ := h sub0 hsub0
    rw [hobs]
    exact ⟨hch, hb⟩

/-- Any history of bus operations preserves the invariant. -/
lemma businv_applyOps (ops : List BusOp) (bus : EventBusM) (h : BusInv bus) :
    BusInv (applyBusOps bus ops) := by
  induction ops generalizing bus with
  | nil => exact h
  | cons op rest ih => exact ih _ (businv_step bus op h)

/-- C4: after any history of bus operations (publishes, subscribes,
unsubscribes and subscriber channel reads) starting from a fresh bus, the
sequence numbers any single subscriber observes — the events it has
received in receipt order followed by those still queued for it — are
strictly increasing: gaps are possible (full-queue drops simply never
enqueue), but never a decrease or a repeat. -/
theorem c4_subscriber_seq_monotone (ops : List BusOp) (i : Nat)
    (h : i < (applyBusOps newEventBus ops).subscribers.length) :
    List.Chain' (· < ·)
      (obsSeqs ((applyBusOps newEventBus ops).subscribers.getD i defaultSub)) := by
  have hmem : (applyBusOps newEventBus ops).subscribers.getD i defaultSub
      ∈ (applyBusOps newEventBus ops).subscribers := by
    rw [List.getD_eq_getElem _ _ h]
    exact List.getElem_mem h
  exact (businv_applyOps ops newEventBus newEventBus_inv _ hmem).1

/-- C4 witness: the concrete history yields a subscriber whose observed
sequence numbers are strictly increasing. -/
theorem c4_witness :
    0 < (applyBusOps newEventBus opsC4).subscribers.length ∧
    List.Chain' (· < ·)
      (obsSeqs ((applyBusOps newEventBus opsC4).subscribers.getD 0 defaultSub)) :=
  ⟨by decide, c4_subscriber_seq_monotone opsC4 0 (by decide)⟩

end DogBot
